import Mathlib

/-!
Verification of the wallet-connection demo (src/src/App.tsx) against its
natural-language specification.

The single source file is a React component.  We embed its state and its
operations shallowly:

* `ConnectionState` / `WalletState` mirror the TypeScript union type and
  interface (lines 10-19 of App.tsx).
* The React component's full state (`wallet`, `provider`, `signer` hooks,
  lines 22-30) becomes `AppState`.
* The external EIP-1193 provider / ethers library is an external
  collaborator; one invocation of `connectWallet` consumes a
  `ProviderResponse` recording what each awaited call returns (a value, or
  a rejection carrying an optional message — JS `error?.message`).
* `connectWallet` also returns the list of external calls it issued, so
  that statements about which reads happen (and which do not) are
  expressible.
* Event handlers (lines 150-189) and the mount effect (lines 34-54) become
  `stepEvent`; `Reachable` closes the initial state under all events.
-/

/-- Embeds `type ConnectionState = "disconnected" | "connecting" | "connected" | "error"`
(App.tsx line 10). -/
inductive ConnectionState where
  | disconnected
  | connecting
  | connected
  | error
deriving DecidableEq, Repr

/-- Embeds `interface WalletState` (App.tsx lines 13-19): nullable fields
become `Option`. -/
structure WalletState where
  address : Option String
  chainId : Option Nat
  balanceEth : Option String
  status : ConnectionState
  error : Option String
deriving DecidableEq, Repr

/-- The initial wallet state passed to `useState` (App.tsx lines 22-28),
also the state written by `resetWalletState` (lines 58-67). -/
def initialWalletState : WalletState :=
  { address := none, chainId := none, balanceEth := none,
    status := ConnectionState.disconnected, error := none }

/-- The component's full state: the `wallet` record plus the `provider`
and `signer` hooks (App.tsx lines 22-30).  The provider handle carries no
data relevant to the claims, so it is modelled as presence (`Bool`); the
signer handle is an opaque token (`Nat`) supplied by the provider. -/
structure AppState where
  provider : Bool
  wallet : WalletState
  signer : Option Nat
deriving DecidableEq, Repr

/-- The component's state at startup, before the mount effect runs. -/
def initialAppState : AppState :=
  { provider := false, wallet := initialWalletState, signer := none }

deriving instance DecidableEq for Except

/-- One invocation's worth of responses from the external provider /
ethers library.  Each awaited call either resolves (`Except.ok`) or
rejects with a JS error whose `message` may be absent
(`Except.error (m : Option String)`).  `eth_requestAccounts` may resolve
to `null`/`undefined` instead of an array, hence `Option (List String)`. -/
structure ProviderResponse where
  requestAccounts : Except (Option String) (Option (List String))
  getSigner : Except (Option String) Nat
  getNetwork : Except (Option String) Nat
  getBalance : Except (Option String) Nat
deriving DecidableEq, Repr

/-- The external calls `connectWallet` can issue, in source order
(App.tsx lines 93, 109, 114, 117); the last three are the ERC-20 reads the
spec mentions, listed so their absence from a trace is statable. -/
inductive ProviderCall where
  | requestAccountsCall
  | getSignerCall
  | getNetworkCall
  | getBalanceCall
  | symbolCall
  | decimalsCall
  | balanceOfCall
deriving DecidableEq, Repr

/-- Error message of App.tsx line 77 (provider not initialised). -/
def noProviderInitMsg : String :=
  "Провайдер не инициализирован (нет window.ethereum)."

/-- Error message thrown at App.tsx line 100 ("no accounts available"). -/
def noAccountsMsg : String := "Нет доступных аккаунтов"

/-- Fallback of `error?.message ?? ...` at App.tsx line 142. -/
def fallbackConnectErrMsg : String := "Ошибка при подключении кошелька"

/-- Error message of the mount effect when no injected provider exists
(App.tsx line 51). -/
def noProviderMsg : String :=
  "Кошелёк не найден. Установите MetaMask или совместимый wallet."

/-- Modelled from the spec: `formatEther` is supplied by the ethers
library (imported at App.tsx line 7, not part of src/).  Per the spec's
numeric semantics it divides the base-unit integer by 10^18 using
string-based decimal formatting: whole part, a dot, then the 18-digit
zero-padded remainder with trailing zeros trimmed (at least one fractional
digit kept, so 0 formats as "0.0"). -/
def formatEther (wei : Nat) : String :=
  let whole := wei / 10 ^ 18
  let frac := wei % 10 ^ 18
  let digits := Nat.toDigits 10 frac
  let padded := List.replicate (18 - digits.length) '0' ++ digits
  let trimmed := (padded.reverse.dropWhile (fun c => c = '0')).reverse
  let fracStr := if trimmed.isEmpty then "0" else String.mk trimmed
  Nat.repr whole ++ "." ++ fracStr

/-- The `catch` branch of `connectWallet` (App.tsx lines 139-143):
`{...prev, status: "error", error: error?.message ?? fallback}`. -/
def failWallet (w : WalletState) (m : Option String) : WalletState :=
  { w with status := ConnectionState.error,
           error := some (m.getD fallbackConnectErrMsg) }

/-- Embeds `connectWallet` (App.tsx lines 70-145).  Returns the new
component state together with the trace of external calls issued.
Branches, in source order: missing provider guard (lines 73-80); the
`connecting` update (line 84); account request and empty/null guard
(lines 93-101); signer, network, balance reads (lines 109-117); the
success replacement (lines 125-132); any rejection lands in the catch
branch (lines 133-144). -/
def connectWallet (resp : ProviderResponse) (s : AppState) :
    AppState × List ProviderCall :=
  if s.provider = false then
    let w := { s.wallet with
               status := ConnectionState.error,
               error := some noProviderInitMsg }
    ({ s with wallet := w }, [])
  else
    let w1 := { s.wallet with status := ConnectionState.connecting, error := none }
    match resp.requestAccounts with
    | Except.error m =>
        ({ s with wallet := failWallet w1 m }, [ProviderCall.requestAccountsCall])
    | Except.ok none =>
        ({ s with wallet := failWallet w1 (some noAccountsMsg) },
         [ProviderCall.requestAccountsCall])
    | Except.ok (some []) =>
        ({ s with wallet := failWallet w1 (some noAccountsMsg) },
         [ProviderCall.requestAccountsCall])
    | Except.ok (some (userAddress :: _)) =>
      match resp.getSigner with
      | Except.error m =>
          ({ s with wallet := failWallet w1 m },
           [ProviderCall.requestAccountsCall, ProviderCall.getSignerCall])
      | Except.ok nextSigner =>
        match resp.getNetwork with
        | Except.error m =>
            ({ s with wallet := failWallet w1 m },
             [ProviderCall.requestAccountsCall, ProviderCall.getSignerCall,
              ProviderCall.getNetworkCall])
        | Except.ok chainId =>
          match resp.getBalance with
          | Except.error m =>
              ({ s with wallet := failWallet w1 m },
               [ProviderCall.requestAccountsCall, ProviderCall.getSignerCall,
                ProviderCall.getNetworkCall, ProviderCall.getBalanceCall])
          | Except.ok balanceWei =>
              ({ provider := s.provider, signer := some nextSigner,
                 wallet := { address := some userAddress,
                             chainId := some chainId,
                             balanceEth := some (formatEther balanceWei),
                             status := ConnectionState.connected,
                             error := none } },
               [ProviderCall.requestAccountsCall, ProviderCall.getSignerCall,
                ProviderCall.getNetworkCall, ProviderCall.getBalanceCall])

/-- Embeds `resetWalletState` (App.tsx lines 58-67): wallet back to the
initial record, signer discarded; the provider handle is untouched. -/
def resetWalletState (s : AppState) : AppState :=
  { s with wallet := initialWalletState, signer := none }

/-- Embeds `handleAccountsChanged` (App.tsx lines 155-167): empty or
null list resets the state, a non-empty list re-runs `connectWallet`. -/
def handleAccountsChanged (accounts : Option (List String))
    (resp : ProviderResponse) (s : AppState) : AppState :=
  match accounts with
  | none => resetWalletState s
  | some [] => resetWalletState s
  | some (_ :: _) => (connectWallet resp s).1

/-- Embeds `handleChainChanged` (App.tsx lines 170-175): the delivered
hex chain id is ignored and `connectWallet` re-runs. -/
def handleChainChanged (resp : ProviderResponse) (s : AppState) : AppState :=
  (connectWallet resp s).1

/-- Embeds the mount effect (App.tsx lines 34-54): store the provider
handle when `window.ethereum` exists, otherwise transition to error. -/
def bootstrap (hasEthereum : Bool) (s : AppState) : AppState :=
  if hasEthereum then { s with provider := true }
  else
    let w := { s.wallet with
               status := ConnectionState.error,
               error := some noProviderMsg }
    { s with wallet := w }

/-- Every way the component's state changes: the mount effect, the
connect button (App.tsx line 241), and the two provider events. -/
inductive Event where
  | mount (hasEthereum : Bool)
  | clickConnect (resp : ProviderResponse)
  | accountsChanged (accounts : Option (List String)) (resp : ProviderResponse)
  | chainChanged (resp : ProviderResponse)

/-- One state transition of the component. -/
def stepEvent : Event → AppState → AppState
  | Event.mount h, s => bootstrap h s
  | Event.clickConnect r, s => (connectWallet r s).1
  | Event.accountsChanged a r, s => handleAccountsChanged a r s
  | Event.chainChanged r, s => handleChainChanged r s

/-- States the component can actually be in: the initial state closed
under all events. -/
inductive Reachable : AppState → Prop where
  | init : Reachable initialAppState
  | step (e : Event) {s : AppState} : Reachable s → Reachable (stepEvent e s)

/-- Embeds `shortAddress` (App.tsx lines 192-193):
`address.slice(0, 6) + "..." + address.slice(-4)`, `null` when no
address. -/
def shortAddress (w : WalletState) : Option String :=
  w.address.map (fun a =>
    String.mk (a.toList.take 6) ++ "..." ++
      String.mk ((a.toList.reverse.take 4).reverse))

/-- Embeds `expectedChainId` (App.tsx line 197). -/
def expectedChainId : Nat := 1

/-- Embeds `isWrongNetwork` (App.tsx lines 200-201):
`chainId !== null && chainId !== expectedChainId`. -/
def isWrongNetwork (w : WalletState) : Bool :=
  match w.chainId with
  | none => false
  | some c => decide (c ≠ expectedChainId)

/-- Whether the wrong-network warning paragraph is rendered: the JSX
places it inside the `status === "connected"` block, guarded by
`isWrongNetwork` (App.tsx lines 261, 276-280). -/
def rendersWrongNetworkWarning (w : WalletState) : Bool :=
  decide (w.status = ConnectionState.connected) && isWrongNetwork w

/-! ## Derived descriptions of one connect invocation

`connectOutcome` condenses a `ProviderResponse` to either the first
failure (in the source's call order) or the data of the success path;
`connect_spec` proves `connectWallet` produces exactly the corresponding
state.  These are proof scaffolding, shared by several claims. -/

/-- First failure of the awaited calls in source order, or the success
data `(address, signer, chainId, balanceWei)`. -/
def connectOutcome (resp : ProviderResponse) :
    Except (Option String) (String × Nat × Nat × Nat) :=
  match resp.requestAccounts with
  | Except.error m => Except.error m
  | Except.ok none => Except.error (some noAccountsMsg)
  | Except.ok (some []) => Except.error (some noAccountsMsg)
  | Except.ok (some (a :: _)) =>
    match resp.getSigner with
    | Except.error m => Except.error m
    | Except.ok sg =>
      match resp.getNetwork with
      | Except.error m => Except.error m
      | Except.ok cid =>
        match resp.getBalance with
        | Except.error m => Except.error m
        | Except.ok wei => Except.ok (a, sg, cid, wei)

/-- The state after a failed attempt: data fields kept, status `error`,
error message installed. -/
def failedAppState (s : AppState) (m : Option String) : AppState :=
  { s with wallet := { address := s.wallet.address,
                       chainId := s.wallet.chainId,
                       balanceEth := s.wallet.balanceEth,
                       status := ConnectionState.error,
                       error := some (m.getD fallbackConnectErrMsg) } }

/-- The state after a fully successful attempt. -/
def connectedAppState (pr : Bool) (a : String) (sg cid wei : Nat) : AppState :=
  { provider := pr, signer := some sg,
    wallet := { address := some a, chainId := some cid,
                balanceEth := some (formatEther wei),
                status := ConnectionState.connected, error := none } }

/-- The failure a connect invocation ends in (`none` when it succeeds):
the missing-provider guard message, or the first rejection's message with
the source's fallback applied. -/
def connectFailure (s : AppState) (resp : ProviderResponse) : Option String :=
  if s.provider = false then some noProviderInitMsg
  else
    match connectOutcome resp with
    | Except.error m => some (m.getD fallbackConnectErrMsg)
    | Except.ok _ => none

/-- The part of the spec's state invariant that the code maintains:
a non-null `error` only in status `error`, and a `connected` status only
with all data fields populated and `error` null. -/
def walletInv (w : WalletState) : Prop :=
  (w.error ≠ none → w.status = ConnectionState.error) ∧
  (w.status = ConnectionState.connected →
    w.address ≠ none ∧ w.chainId ≠ none ∧ w.balanceEth ≠ none ∧ w.error = none)

/-- The spec's example account (42 characters: `0xABCD`, 32 zeros,
`1234`). -/
def demoAddress : String := "0xABCD000000000000000000000000000000001234"

/-- A provider run in which every call succeeds: one account, chain id 1,
balance 1.5e18 base units, some signer handle. -/
def respFullSuccess : ProviderResponse :=
  { requestAccounts := Except.ok (some [demoAddress]),
    getSigner := Except.ok 7,
    getNetwork := Except.ok 1,
    getBalance := Except.ok 1500000000000000000 }

/-- A provider run whose account request is rejected by the user. -/
def respRejected : ProviderResponse :=
  { respFullSuccess with
    requestAccounts := Except.error (some "User rejected the request.") }

/-- The component state after the mount effect found an injected
provider. -/
def readyAppState : AppState :=
  { provider := true, wallet := initialWalletState, signer := none }

/-- A concrete reachable connected state: mount finds a provider, then a
fully successful connect. -/
def connectedDemoState : AppState :=
  stepEvent (Event.clickConnect respFullSuccess)
    (stepEvent (Event.mount true) initialAppState)

/-- A concrete reachable state in which a rejected reconnect attempt has
left the previous connection's data on display: connect succeeded, then a
second connect was rejected. -/
def staleErrorState : AppState :=
  stepEvent (Event.clickConnect respRejected) connectedDemoState

theorem connect_spec (resp : ProviderResponse) (s : AppState)
    (hp : s.provider = true) :
    (connectWallet resp s).1 =
      (match connectOutcome resp with
       | Except.error m => failedAppState s m
       | Except.ok (a, sg, cid, wei) => connectedAppState s.provider a sg cid wei) := by
  unfold connectWallet connectOutcome failedAppState connectedAppState failWallet
  rw [hp]
  simp only [Bool.true_eq_false, if_false]
  rcases resp with ⟨ra, rs, rn, rb⟩
  rcases ra with m | acc
  · rfl
  · rcases acc with _ | ⟨_ | ⟨a, rest⟩⟩
    · rfl
    · rfl
    · rcases rs with m | sg
      · rfl
      · rcases rn with m | cid
        · rfl
        · rcases rb with m | wei
          · rfl
          · rfl

theorem connect_noProvider (resp : ProviderResponse) (s : AppState)
    (hp : s.provider = false) :
    (connectWallet resp s).1 =
      { s with wallet := { address := s.wallet.address,
                           chainId := s.wallet.chainId,
                           balanceEth := s.wallet.balanceEth,
                           status := ConnectionState.error,
                           error := some noProviderInitMsg } } := by
  unfold connectWallet
  rw [hp]
  rfl

theorem connect_walletInv (resp : ProviderResponse) (s : AppState) :
    walletInv (connectWallet resp s).1.wallet := by
  cases hp : s.provider with
  | false =>
      rw [connect_noProvider resp s hp]
      simp [walletInv]
  | true =>
      rw [connect_spec resp s hp]
      cases ho : connectOutcome resp with
      | error m => simp [failedAppState, walletInv]
      | ok v =>
          obtain ⟨a, sg, cid, wei⟩ := v
          simp [connectedAppState, walletInv]

theorem reachable_walletInv (s : AppState) (h : Reachable s) :
    walletInv s.wallet := by
  induction h with
  | init => simp [walletInv, initialAppState, initialWalletState]
  | step e hr ih =>
      cases e with
      | mount hE =>
          cases hE with
          | false => simp [stepEvent, bootstrap, walletInv]
          | true => simpa [stepEvent, bootstrap] using ih
      | clickConnect r => exact connect_walletInv r _
      | accountsChanged a r =>
          rcases a with _ | (_ | ⟨x, xs⟩)
          · simp [stepEvent, handleAccountsChanged, resetWalletState, walletInv,
                  initialWalletState]
          · simp [stepEvent, handleAccountsChanged, resetWalletState, walletInv,
                  initialWalletState]
          · exact connect_walletInv r _
      | chainChanged r => exact connect_walletInv r _

/-- C1 (amended): on full success of the connect operation, the component
state is atomically replaced with the record {address, chainId,
formatted native balance, status connected, error null} and the signer
handle is stored; the four issued calls are the account request and the
signer, network and balance reads — the state has no token fields and no
ERC-20 read takes place. -/
theorem connect_success_replaces_state (s : AppState) (resp : ProviderResponse)
    (a : String) (rest : List String) (sg cid wei : Nat)
    (hp : s.provider = true)
    (ha : resp.requestAccounts = Except.ok (some (a :: rest)))
    (hs : resp.getSigner = Except.ok sg)
    (hn : resp.getNetwork = Except.ok cid)
    (hb : resp.getBalance = Except.ok wei) :
    connectWallet resp s =
      ({ provider := true, signer := some sg,
         wallet := { address := some a, chainId := some cid,
                     balanceEth := some (formatEther wei),
                     status := ConnectionState.connected, error := none } },
       [ProviderCall.requestAccountsCall, ProviderCall.getSignerCall,
        ProviderCall.getNetworkCall, ProviderCall.getBalanceCall]) := by
  unfold connectWallet
  rw [ha, hs, hn, hb, hp]
  simp

/-- Witness for the amended C1 theorem: the demo provider run. -/
theorem connect_success_replaces_state_witness :
    readyAppState.provider = true ∧
    respFullSuccess.requestAccounts = Except.ok (some (demoAddress :: [])) ∧
    connectWallet respFullSuccess readyAppState =
      ({ provider := true, signer := some 7,
         wallet := { address := some demoAddress, chainId := some 1,
                     balanceEth := some (formatEther 1500000000000000000),
                     status := ConnectionState.connected, error := none } },
       [ProviderCall.requestAccountsCall, ProviderCall.getSignerCall,
        ProviderCall.getNetworkCall, ProviderCall.getBalanceCall]) :=
  ⟨rfl, rfl,
   connect_success_replaces_state readyAppState respFullSuccess demoAddress [] 7 1
     1500000000000000000 rfl rfl rfl rfl rfl⟩

/-- C1 counterexample: even on a fully successful connect the code never
calls `symbol()`, `decimals()` or `balanceOf` — the trace of issued calls
contains none of them, so no token symbol or balance is obtained. -/
theorem connect_success_no_erc20_read :
    (connectWallet respFullSuccess readyAppState).1.wallet.status =
      ConnectionState.connected ∧
    ProviderCall.symbolCall ∉ (connectWallet respFullSuccess readyAppState).2 ∧
    ProviderCall.decimalsCall ∉ (connectWallet respFullSuccess readyAppState).2 ∧
    ProviderCall.balanceOfCall ∉ (connectWallet respFullSuccess readyAppState).2 := by
  decide

/-- C2 (amended): in every reachable state exactly one of the four
statuses holds, the error field is non-null only when status = error, and
a connected status comes with all data fields populated and error null;
the data fields themselves may stay non-null (stale) in the connecting
and error states after an earlier successful connect. -/
theorem reachable_status_invariant (s : AppState) (h : Reachable s) :
    (s.wallet.status = ConnectionState.disconnected ∨
     s.wallet.status = ConnectionState.connecting ∨
     s.wallet.status = ConnectionState.connected ∨
     s.wallet.status = ConnectionState.error) ∧
    (s.wallet.error ≠ none → s.wallet.status = ConnectionState.error) ∧
    (s.wallet.status = ConnectionState.connected →
      s.wallet.address ≠ none ∧ s.wallet.chainId ≠ none ∧
      s.wallet.balanceEth ≠ none ∧ s.wallet.error = none) := by
  have hi := reachable_walletInv s h
  refine ⟨?_, hi.1, hi.2⟩
  cases hw : s.wallet.status <;> simp

/-- Witness for the amended C2 theorem: the initial state. -/
theorem reachable_status_invariant_witness :
    (initialAppState.wallet.status = ConnectionState.disconnected ∨
     initialAppState.wallet.status = ConnectionState.connecting ∨
     initialAppState.wallet.status = ConnectionState.connected ∨
     initialAppState.wallet.status = ConnectionState.error) ∧
    (initialAppState.wallet.error ≠ none →
      initialAppState.wallet.status = ConnectionState.error) ∧
    (initialAppState.wallet.status = ConnectionState.connected →
      initialAppState.wallet.address ≠ none ∧
      initialAppState.wallet.chainId ≠ none ∧
      initialAppState.wallet.balanceEth ≠ none ∧
      initialAppState.wallet.error = none) :=
  reachable_status_invariant initialAppState Reachable.init

/-- C2 counterexample: a reachable state (mount, successful connect, then
a rejected reconnect) whose status is error while address is still
non-null — refuting that address is non-null only when status is
connected. -/
theorem stale_address_in_error_state :
    Reachable staleErrorState ∧
    staleErrorState.wallet.status = ConnectionState.error ∧
    staleErrorState.wallet.address = some demoAddress := by
  constructor
  · show Reachable (stepEvent (Event.clickConnect respRejected)
      (stepEvent (Event.clickConnect respFullSuccess)
        (stepEvent (Event.mount true) initialAppState)))
    exact Reachable.step _ (Reachable.step _ (Reachable.step _ Reachable.init))
  · constructor
    · decide
    · decide

/-- C3: whenever a connect attempt fails (at any step, with message m),
the final wallet keeps the address, chainId and balance it had before the
attempt, while status becomes error and the error field becomes m — no
rollback, no clearing of stale display data. -/
theorem connect_failure_frame (s : AppState) (resp : ProviderResponse)
    (m : String) (hf : connectFailure s resp = some m) :
    (connectWallet resp s).1.wallet.address = s.wallet.address ∧
    (connectWallet resp s).1.wallet.chainId = s.wallet.chainId ∧
    (connectWallet resp s).1.wallet.balanceEth = s.wallet.balanceEth ∧
    (connectWallet resp s).1.wallet.status = ConnectionState.error ∧
    (connectWallet resp s).1.wallet.error = some m := by
  cases hp : s.provider with
  | false =>
      unfold connectFailure at hf
      rw [hp] at hf
      simp only [reduceIte, Option.some.injEq] at hf
      rw [connect_noProvider resp s hp]
      simp [hf]
  | true =>
      unfold connectFailure at hf
      rw [hp] at hf
      simp only [Bool.true_eq_false, reduceIte] at hf
      rw [connect_spec resp s hp]
      cases ho : connectOutcome resp with
      | error m2 =>
          rw [ho] at hf
          simp only [Option.some.injEq] at hf
          simp [failedAppState, hf]
      | ok v =>
          rw [ho] at hf
          simp at hf

/-- Witness for the C3 theorem: a connected state whose reconnect attempt
is rejected by the user. -/
theorem connect_failure_frame_witness :
    connectFailure connectedDemoState respRejected =
      some "User rejected the request." ∧
    ((connectWallet respRejected connectedDemoState).1.wallet.address =
       connectedDemoState.wallet.address ∧
     (connectWallet respRejected connectedDemoState).1.wallet.chainId =
       connectedDemoState.wallet.chainId ∧
     (connectWallet respRejected connectedDemoState).1.wallet.balanceEth =
       connectedDemoState.wallet.balanceEth ∧
     (connectWallet respRejected connectedDemoState).1.wallet.status =
       ConnectionState.error ∧
     (connectWallet respRejected connectedDemoState).1.wallet.error =
       some "User rejected the request.") :=
  ⟨rfl, connect_failure_frame connectedDemoState respRejected
     "User rejected the request." rfl⟩

/-- C4: with an unchanged provider response, running the connect
operation a second time leaves the state it produced the first time
unchanged — connect is idempotent. -/
theorem connect_idempotent (resp : ProviderResponse) (s : AppState) :
    (connectWallet resp (connectWallet resp s).1).1 = (connectWallet resp s).1 := by
  cases hp : s.provider with
  | false =>
      have h1 := connect_noProvider resp s hp
      have hp2 : (connectWallet resp s).1.provider = false := by
        rw [h1]
        exact hp
      rw [connect_noProvider resp _ hp2, h1]
  | true =>
      have h1 := connect_spec resp s hp
      cases ho : connectOutcome resp with
      | error m =>
          rw [ho] at h1
          have hp2 : (connectWallet resp s).1.provider = true := by
            rw [h1]
            simpa [failedAppState] using hp
          rw [connect_spec resp _ hp2, ho, h1]
          simp [failedAppState]
      | ok v =>
          obtain ⟨a, sg, cid, wei⟩ := v
          rw [ho] at h1
          have hp2 : (connectWallet resp s).1.provider = true := by
            rw [h1]
            simpa [connectedAppState] using hp
          rw [connect_spec resp _ hp2, ho, h1]
          simp [connectedAppState]

/-- C5: with the demo provider (one account, chainId 1, balance
1_500_000_000_000_000_000 base units) the connected state displays the
exact decimal string "1.5" and the shortened address is the first 6
characters, "...", and the last 4 characters. -/
theorem connect_demo_balance_and_short_address :
    (connectWallet respFullSuccess readyAppState).1.wallet.balanceEth =
      some "1.5" ∧
    shortAddress (connectWallet respFullSuccess readyAppState).1.wallet =
      some "0xABCD...1234" := by
  constructor
  · rfl
  · rfl

/-- C6: in a connected state with chain id c, the wrong-network warning
is rendered if and only if c differs from the fixed expected value 1. -/
theorem wrong_network_warning_iff (w : WalletState) (c : Nat)
    (hs : w.status = ConnectionState.connected) (hc : w.chainId = some c) :
    rendersWrongNetworkWarning w = true ↔ c ≠ 1 := by
  unfold rendersWrongNetworkWarning isWrongNetwork expectedChainId
  rw [hs, hc]
  simp

/-- Witness for the C6 theorem: a connected state on chain 5 renders the
warning. -/
theorem wrong_network_warning_iff_witness :
    rendersWrongNetworkWarning
      { address := some demoAddress, chainId := some 5,
        balanceEth := some "1.5", status := ConnectionState.connected,
        error := none } = true ↔ (5 : Nat) ≠ 1 :=
  wrong_network_warning_iff _ 5 rfl rfl

/-- C7: an empty (or null) account-list notification resets the wallet
record to its initial disconnected values and discards the signer handle,
from any state; a non-empty list re-runs the connect operation. -/
theorem accounts_changed_resets_or_reconnects (s : AppState)
    (resp : ProviderResponse) :
    handleAccountsChanged (some []) resp s =
      { provider := s.provider, wallet := initialWalletState, signer := none } ∧
    handleAccountsChanged none resp s =
      { provider := s.provider, wallet := initialWalletState, signer := none } ∧
    ∀ (a : String) (rest : List String),
      handleAccountsChanged (some (a :: rest)) resp s = (connectWallet resp s).1 :=
  ⟨rfl, rfl, fun _ _ => rfl⟩

/-- C8: when the account request resolves to an empty list, connect fails
with the "no accounts available" message and issues no signer, network or
balance read — its trace is the single account request. -/
theorem connect_empty_accounts_fails (s : AppState) (resp : ProviderResponse)
    (hp : s.provider = true)
    (ha : resp.requestAccounts = Except.ok (some [])) :
    (connectWallet resp s).1.wallet.status = ConnectionState.error ∧
    (connectWallet resp s).1.wallet.error = some noAccountsMsg ∧
    (connectWallet resp s).2 = [ProviderCall.requestAccountsCall] := by
  unfold connectWallet
  rw [ha, hp]
  simp [failWallet]

/-- Witness for the C8 theorem: the demo provider granting no accounts. -/
theorem connect_empty_accounts_fails_witness :
    readyAppState.provider = true ∧
    ((connectWallet
        { respFullSuccess with requestAccounts := Except.ok (some []) }
        readyAppState).1.wallet.status = ConnectionState.error ∧
     (connectWallet
        { respFullSuccess with requestAccounts := Except.ok (some []) }
        readyAppState).1.wallet.error = some noAccountsMsg ∧
     (connectWallet
        { respFullSuccess with requestAccounts := Except.ok (some []) }
        readyAppState).2 = [ProviderCall.requestAccountsCall]) :=
  ⟨rfl, connect_empty_accounts_fails readyAppState
     { respFullSuccess with requestAccounts := Except.ok (some []) } rfl rfl⟩

/-- C9: in every reachable state, a connected status implies the address,
chainId and balance fields are all non-null and the error field is null —
a connected state is never partially populated. -/
theorem connected_state_fully_populated (s : AppState) (h : Reachable s)
    (hc : s.wallet.status = ConnectionState.connected) :
    s.wallet.address ≠ none ∧ s.wallet.chainId ≠ none ∧
    s.wallet.balanceEth ≠ none ∧ s.wallet.error = none :=
  (reachable_walletInv s h).2 hc

/-- Witness for the C9 theorem: the demo connected state. -/
theorem connected_state_fully_populated_witness :
    connectedDemoState.wallet.address ≠ none ∧
    connectedDemoState.wallet.chainId ≠ none ∧
    connectedDemoState.wallet.balanceEth ≠ none ∧
    connectedDemoState.wallet.error = none :=
  connected_state_fully_populated connectedDemoState
    (Reachable.step _ (Reachable.step _ Reachable.init)) (by decide)

/-- C10: when the account request resolves to null/undefined rather than
a list, connect behaves exactly as for an empty list — the guard short
circuits before any first-element access, so the whole result (state and
call trace) coincides with the empty-list run. -/
theorem connect_null_accounts_eq_empty (s : AppState) (resp : ProviderResponse)
    (ha : resp.requestAccounts = Except.ok none) :
    connectWallet resp s =
      connectWallet { resp with requestAccounts := Except.ok (some []) } s := by
  cases hp : s.provider with
  | false => simp [connectWallet, hp]
  | true => simp [connectWallet, hp, ha]

/-- Witness for the C10 theorem: the demo provider resolving the account
request to null. -/
theorem connect_null_accounts_eq_empty_witness :
    connectWallet { respFullSuccess with requestAccounts := Except.ok none }
        readyAppState =
      connectWallet
        { { respFullSuccess with requestAccounts := Except.ok none } with
          requestAccounts := Except.ok (some []) } readyAppState :=
  connect_null_accounts_eq_empty readyAppState
    { respFullSuccess with requestAccounts := Except.ok none } rfl
